import Mathlib

/-
Verification of the kopia local caching layer.

Part 1 models the in-memory directory-listing cache (package fscache,
src/unnamed/part_000).  The Go code keeps heap-allocated `cacheEntry`
nodes linked into a doubly-linked access-order list; we embed the heap
as an arena (`List Node`) addressed by allocation index, so Go pointers
become indices and pointer mutation becomes point updates of the arena.
Nodes are never deallocated (Go is garbage collected), so stale pointers
into the arena remain observable, exactly as in the source.

`fs.Entries` is abstracted as `List Nat` (only its length and identity
matter to the cache).  `time.Time` is a `Nat` instant; each `GetEntries`
call receives the current instant `now` (the two `time.Now()` calls in
the body are modelled as the same instant).  The loader callback is
modelled by the value it would return when invoked
(`Except String (List Nat)`); the `calledLoader` flag of the result
records whether the code path actually invoked it.  The `unlocked` flag
records whether the taken return path executed `c.Unlock()`.
Go `int` is `Int`; lengths are cast where compared.
-/

namespace Fscache

/-- Arena image of the Go `cacheEntry` struct: `prev`/`next` are arena
indices (`none` = nil pointer). -/
structure Node where
  id : String
  prev : Option Nat
  next : Option Nat
  expireAfter : Nat
  entries : List Nat
deriving DecidableEq, Repr

/-- Default node returned for an out-of-range arena read (never reached
by the modelled operations on states built by the API). -/
def defaultNode : Node :=
  { id := "", prev := none, next := none, expireAfter := 0, entries := [] }

/-- Read the node at arena index `i`. -/
def getN (ns : List Node) (i : Nat) : Node :=
  match ns, i with
  | [], _ => defaultNode
  | n :: _, 0 => n
  | _ :: rest, j+1 => getN rest j

/-- Update the node at arena index `i` with `f` (no-op out of range). -/
def updNode (ns : List Node) (i : Nat) (f : Node → Node) : List Node :=
  match ns, i with
  | [], _ => []
  | n :: rest, 0 => f n :: rest
  | n :: rest, j+1 => n :: updNode rest j f

/-- Image of the Go `Cache` struct (minus the mutex and debug flag):
`data` is the `map[string]*cacheEntry`, values being arena indices. -/
structure CacheState where
  nodes : List Node
  totalDirectoryEntries : Int
  maxDirectories : Int
  maxDirectoryEntries : Int
  data : List (String × Nat)
  head : Option Nat
  tail : Option Nat
deriving DecidableEq, Repr

/-- Go map read `m[id]` (maps built by the cache have unique keys). -/
def mapLookup (m : List (String × Nat)) (k : String) : Option Nat :=
  match m with
  | [] => none
  | (k1, v) :: rest => if k1 = k then some v else mapLookup rest k

/-- Go map write `m[id] = v` (replaces an existing binding). -/
def mapInsert (m : List (String × Nat)) (k : String) (v : Nat) : List (String × Nat) :=
  match m with
  | [] => [(k, v)]
  | (k1, v1) :: rest => if k1 = k then (k, v) :: rest else (k1, v1) :: mapInsert rest k v

/-- Go `delete(m, id)` (no-op when the key is absent). -/
def mapErase (m : List (String × Nat)) (k : String) : List (String × Nat) :=
  match m with
  | [] => []
  | (k1, v1) :: rest => if k1 = k then rest else (k1, v1) :: mapErase rest k

/-- Pointer write `e.next = v`. -/
def setNext (s : CacheState) (i : Nat) (v : Option Nat) : CacheState :=
  { s with nodes := updNode s.nodes i (fun n => { n with next := v }) }

/-- Pointer write `e.prev = v`. -/
def setPrev (s : CacheState) (i : Nat) (v : Option Nat) : CacheState :=
  { s with nodes := updNode s.nodes i (fun n => { n with prev := v }) }

/-- First statement of Go `func (c *Cache) remove(e *cacheEntry)`:
`if e.prev == nil { c.head = e.next } else { e.prev.next = e.next }`. -/
def removeStep1 (s : CacheState) (e : Nat) : CacheState :=
  match (getN s.nodes e).prev with
  | none => { s with head := (getN s.nodes e).next }
  | some p => setNext s p ((getN s.nodes e).next)

/-- Second statement of Go `remove`:
`if e.next == nil { c.tail = e.prev } else { e.next.prev = e.prev }`;
its field reads happen against the state left by the first statement. -/
def removeStep2 (s1 : CacheState) (e : Nat) : CacheState :=
  match (getN s1.nodes e).next with
  | none => { s1 with tail := (getN s1.nodes e).prev }
  | some nx => setPrev s1 nx ((getN s1.nodes e).prev)

/-- Go `func (c *Cache) remove(e *cacheEntry)`, statement by statement. -/
def remove (s : CacheState) (e : Nat) : CacheState :=
  removeStep2 (removeStep1 s e) e

/-- Go `func (c *Cache) addToHead(e *cacheEntry)`.  Note that, exactly as
in the source, `e.prev` is NOT written: a node that is re-added after a
`remove` keeps its stale `prev` pointer. -/
def addToHead (s : CacheState) (e : Nat) : CacheState :=
  match s.head with
  | some h =>
    let s1 := setNext s e (some h)
    let s2 := setPrev s1 h (some e)
    { s2 with head := some e }
  | none => { s with head := some e, tail := some e }

/-- Go `func (c *Cache) moveToHead(e *cacheEntry)`. -/
def moveToHead (s : CacheState) (e : Nat) : CacheState :=
  if s.head = some e then s
  else addToHead (remove s e) e

/-- Go `func (c *Cache) removeEntryLocked(toremove *cacheEntry)`. -/
def removeEntryLocked (s : CacheState) (toremove : Nat) : CacheState :=
  let s1 := remove s toremove
  let n := getN s1.nodes toremove
  { s1 with
    totalDirectoryEntries := s1.totalDirectoryEntries - n.entries.length,
    data := mapErase s1.data n.id }

instance {ε α : Type} [DecidableEq ε] [DecidableEq α] : DecidableEq (Except ε α) := fun a b =>
  match a, b with
  | .error e, .error f =>
    if h : e = f then isTrue (by rw [h]) else isFalse (by intro hh; cases hh; exact h rfl)
  | .error _, .ok _ => isFalse (by intro hh; cases hh)
  | .ok _, .error _ => isFalse (by intro hh; cases hh)
  | .ok x, .ok y =>
    if h : x = y then isTrue (by rw [h]) else isFalse (by intro hh; cases hh; exact h rfl)

/-- Result of one `GetEntries` call: returned value, post-call cache
state, whether the loader callback was invoked, and whether the taken
return path called `c.Unlock()`. -/
structure GetResult where
  res : Except String (List Nat)
  state : CacheState
  calledLoader : Bool
  unlocked : Bool
deriving DecidableEq, Repr

/-- The eviction loop
`for c.totalDirectoryEntries > c.maxDirectoryEntries || len(c.data) > c.maxDirectories`
with explicit fuel; `none` models the two ways the Go loop fails to
return (nil-pointer panic on a nil tail, or divergence). -/
def evictLoop : Nat → CacheState → Option CacheState
  | 0, _ => none
  | fuel+1, s =>
    if s.totalDirectoryEntries > s.maxDirectoryEntries ∨ (s.data.length : Int) > s.maxDirectories then
      match s.tail with
      | none => none
      | some t => evictLoop fuel (removeEntryLocked s t)
    else some s

/-- The portion of `GetEntries` after the lookup/expiry phase (from
`raw, err := cb()` to the end), run against the state `s` current at
that point.  Branches, in source order: loader error (note: no
`c.Unlock()` on this path), oversize result returned uncached, and the
insert-then-evict path. -/
def missFrom (s : CacheState) (id : String) (now expirationTime : Nat)
    (cb : Except String (List Nat)) (fuel : Nat) : Option GetResult :=
  match cb with
  | .error e => some { res := .error e, state := s, calledLoader := true, unlocked := false }
  | .ok raw =>
    if (raw.length : Int) > s.maxDirectoryEntries then
      some { res := .ok raw, state := s, calledLoader := true, unlocked := true }
    else
      let idx := s.nodes.length
      let s1 := { s with nodes := s.nodes ++
        [{ id := id, prev := none, next := none,
           expireAfter := now + expirationTime, entries := raw }] }
      let s2 := addToHead s1 idx
      let s3 := { s2 with
        data := mapInsert s2.data id idx,
        totalDirectoryEntries := s2.totalDirectoryEntries + raw.length }
      match evictLoop fuel s3 with
      | none => none
      | some s4 => some { res := .ok raw, state := s4, calledLoader := true, unlocked := true }

/-- Go `func (c *Cache) GetEntries(id, expirationTime, cb)` for a
non-nil receiver (the nil receiver just runs `cb()`).  The Go hit guard
is `if v, ok := c.data[id]; id != "" && ok`. -/
def GetEntries (s : CacheState) (id : String) (now expirationTime : Nat)
    (cb : Except String (List Nat)) (fuel : Nat) : Option GetResult :=
  match mapLookup s.data id with
  | some i =>
    if id = "" then missFrom s id now expirationTime cb fuel
    else if now < (getN s.nodes i).expireAfter then
      some { res := .ok (getN s.nodes i).entries, state := moveToHead s i,
             calledLoader := false, unlocked := true }
    else missFrom (removeEntryLocked s i) id now expirationTime cb fuel
  | none => missFrom s id now expirationTime cb fuel

/-- Go `NewCache()` before options are applied (defaults 1000 / 100000). -/
def NewCache : CacheState :=
  { nodes := [], totalDirectoryEntries := 0, maxDirectories := 1000,
    maxDirectoryEntries := 100000, data := [], head := none, tail := none }

/-- Go option `MaxCachedDirectories(count)`. -/
def MaxCachedDirectories (count : Int) (c : CacheState) : CacheState :=
  { c with maxDirectories := count }

/-- Go option `MaxCachedDirectoryEntries(count)`. -/
def MaxCachedDirectoryEntries (count : Int) (c : CacheState) : CacheState :=
  { c with maxDirectoryEntries := count }

/-- Sum of the entry counts of the map values (the aggregate the spec
says `totalDirectoryEntries` must equal). -/
def sumEntries (s : CacheState) : Nat :=
  (s.data.map (fun p => (getN s.nodes p.2).entries.length)).sum

/-- Every map binding points at a node carrying the binding's key as its
identifier (holds in every state reachable through the API). -/
def mapConsistent (s : CacheState) : Prop :=
  ∀ p ∈ s.data, (getN s.nodes p.2).id = p.1

instance (s : CacheState) : Decidable (mapConsistent s) :=
  List.decidableBAll _ s.data

/-- The state `GetEntries` has reached right after its lookup/expiry
phase, before the loader result is examined. -/
def afterLookupState (s : CacheState) (id : String) (now : Nat) : CacheState :=
  match mapLookup s.data id with
  | some i =>
    if id = "" then s
    else if now < (getN s.nodes i).expireAfter then s
    else removeEntryLocked s i
  | none => s

/-- Run one `GetEntries` call in an `Option CacheState` pipeline (fixed
ample fuel), keeping only the state; used to build concrete traces. -/
def runGet (os : Option CacheState) (id : String) (now expirationTime : Nat)
    (cb : Except String (List Nat)) : Option CacheState :=
  match os with
  | none => none
  | some s => (GetEntries s id now expirationTime cb 1000).map (fun r => r.state)

/-- Like `runGet` but keeping the whole result of the final call. -/
def runGetR (os : Option CacheState) (id : String) (now expirationTime : Nat)
    (cb : Except String (List Nat)) : Option GetResult :=
  match os with
  | none => none
  | some s => GetEntries s id now expirationTime cb 1000

/-- Trace: one insertion under the empty identifier (a lookup with empty
id never hits, but the insert path still caches the result). -/
def emptyIdTrace1 : Option CacheState := runGet (some NewCache) "" 0 100 (.ok [1, 2])

/-- Trace: a second insertion under the empty identifier (the map
binding is overwritten, but a second list node is created). -/
def emptyIdTrace2 : Option CacheState := runGet emptyIdTrace1 "" 0 100 (.ok [3, 4, 5])

/-- Trace: insert A (1 entry, expires at 10), insert B (2 entries). -/
def promoteTrace2 : Option CacheState :=
  runGet (runGet (some NewCache) "A" 0 10 (.ok [1])) "B" 0 10 (.ok [2, 2])

/-- Trace: then a hit on A at instant 5 promotes A to the head; as in the
source, `addToHead` leaves the promoted node with its stale prev link. -/
def promoteTrace3 : Option CacheState := runGet promoteTrace2 "A" 5 10 (.ok [999])

/-- Trace: then A is found expired at instant 20 and removed by
`removeEntryLocked`; the loader fails so the call ends there. -/
def promoteTrace4 : Option CacheState := runGet promoteTrace3 "A" 20 10 (.error "x")

/-- Trace: a cache holding one unexpired entry for "A" (1 payload item,
expires at 10). -/
def oneEntryTrace : Option CacheState := runGet (some NewCache) "A" 0 10 (.ok [7])

/-- Trace: `GetEntries` on `oneEntryTrace` for "A" at instant 20 (the
entry is expired) with a failing loader. -/
def failAfterExpiryRes : Option GetResult := runGetR oneEntryTrace "A" 20 10 (.error "boom")

/-- Trace: a cache holding one unexpired entry under the empty
identifier (payload [1], expires at 100). -/
def emptyHitTrace : Option CacheState := runGet (some NewCache) "" 0 100 (.ok [1])

/-- Trace: `GetEntries` on `emptyHitTrace` for "" at instant 1, long
before the stored expiry, with a loader returning [9]. -/
def emptyHitRes : Option GetResult := runGetR emptyHitTrace "" 1 100 (.ok [9])

/-- Trace (C6): cache with maxDirectoryEntries = 10; insert X (1 entry)
then B (2 entries), promote X by a hit, let X expire and be removed
(corrupting the list: the tail keeps pointing at the removed-B ghost
later), hit B, insert C (3 entries). -/
def staleTailTrace6 : Option CacheState :=
  runGet (runGet (runGet (runGet (runGet (runGet
    (some (MaxCachedDirectoryEntries 10 NewCache))
    "X" 0 10 (.ok [1]))
    "B" 0 10 (.ok [2, 2]))
    "X" 5 10 (.ok [999]))
    "X" 20 10 (.error "x"))
    "B" 5 10 (.ok [999]))
    "C" 6 10 (.ok [3, 3, 3])

/-- Trace (C6): then insert B again with 8 entries at instant 50 (the
old B entry is expired and removed first); the insertion overflows the
budget and the eviction loop runs on the stale tail. -/
def staleTailRes7 : Option GetResult := runGetR staleTailTrace6 "B" 50 10 (.ok [4, 4, 4, 4, 4, 4, 4, 4])

/-- Trace: the concrete eviction scenario of the spec, first two steps:
maxDirectoryEntries = 10, maxDirectories = 5; insert d1 and d2 with 4
entries each. -/
def evictScenario2 : Option CacheState :=
  runGet (runGet (some (MaxCachedDirectories 5 (MaxCachedDirectoryEntries 10 NewCache)))
    "d1" 0 10 (.ok [1, 1, 1, 1]))
    "d2" 0 10 (.ok [2, 2, 2, 2])

/-- Trace: insert d3 with 4 entries (total 12 > 10 forces one eviction). -/
def evictScenario3 : Option CacheState := runGet evictScenario2 "d3" 0 10 (.ok [3, 3, 3, 3])

/-- A concrete cache literal holding one entry for "a" with payload
[1, 2] expiring at instant 10 (used as a witness input). -/
def oneEntryLit : CacheState :=
  { nodes := [{ id := "a", prev := none, next := none, expireAfter := 10, entries := [1, 2] }],
    totalDirectoryEntries := 2, maxDirectories := 1000, maxDirectoryEntries := 100000,
    data := [("a", 0)], head := some 0, tail := some 0 }

end Fscache

/-
Part 2 models the block cache construction (src/block/block_cache.go).
Filesystem and storage effects that `newBlockCache` performs are supplied
as an environment of outcomes (`ConstructEnv`) and observed as an ordered
event list, so the construction protocol and its error propagation are
the modelled content.  The backing `storage.Storage` is abstracted as a
record of query functions; byte slices are `List Nat`.

The null (disabled) variant returned when caching is off is constructed
in src, but its method bodies live outside the given sources; its
operations below are modelled from the spec.
-/

namespace Block

/-- Metadata describing one cached index block (opaque here). -/
structure IndexInfo where
  blockID : String
deriving DecidableEq, Repr

/-- The storage abstraction, reduced to the queries the claims need:
fetching a content block by physical id / offset / length, and listing
index blocks. -/
structure Storage where
  getBlock : String → Int → Int → Except String (List Nat)
  listBlocks : Except String (List IndexInfo)

/-- Go `CachingOptions` (json tags dropped; the secret is a byte list). -/
structure CachingOptions where
  CacheDirectory : String
  MaxCacheSizeBytes : Int
  MaxListCacheDurationSec : Int
  IgnoreListCache : Bool
  HMACSecret : List Nat

/-- The two polymorphic variants behind the `blockCache` interface.  The
local variant records the constructor arguments `newBlockCache` passes:
backing store, cache root, directory shards, size budget, secret copy
and list-cache TTL in seconds. -/
inductive BlockCache where
  | nullCache (st : Storage)
  | localCache (st : Storage) (cacheDir : String) (shards : List Nat)
      (maxSizeBytes : Int) (hmacSecret : List Nat) (listCacheDurationSec : Int)

/-- Observable side effects of `newBlockCache`, in program order. -/
inductive ConstructEvent where
  | mkdirBlocks
  | openCacheStorage (path : String) (shards : List Nat)
  | deleteListCacheEvent
  | syncSweep
  | startBackgroundSweep
deriving DecidableEq, Repr

/-- Outcomes of the external calls `newBlockCache` makes: whether
`os.Stat` finds the blocks directory, and the errors (if any) of
`os.MkdirAll`, `filesystem.New` and the initial `sweepDirectory`. -/
structure ConstructEnv where
  statBlocksDirExists : Bool
  mkdirErr : Option String
  openErr : Option String
  sweepErr : Option String
deriving DecidableEq, Repr

/-- Go `newBlockCache(ctx, st, caching)`.  Returns the engine together
with the ordered list of effects performed, or the first error met, in
which case no engine is produced. -/
def newBlockCache (st : Storage) (caching : CachingOptions) (env : ConstructEnv) :
    Except String (BlockCache × List ConstructEvent) :=
  if caching.MaxCacheSizeBytes = 0 ∨ caching.CacheDirectory = "" then
    .ok (.nullCache st, [])
  else
    let blockCacheDir := caching.CacheDirectory ++ "/blocks"
    let mkdirStep : Except String (List ConstructEvent) :=
      if env.statBlocksDirExists then .ok []
      else
        match env.mkdirErr with
        | some e => .error e
        | none => .ok [.mkdirBlocks]
    match mkdirStep with
    | .error e => .error e
    | .ok ev1 =>
      match env.openErr with
      | some e => .error e
      | none =>
        let ev2 := ev1 ++ [.openCacheStorage blockCacheDir [2]]
        let ev3 := ev2 ++ (if caching.IgnoreListCache then [.deleteListCacheEvent] else [])
        match env.sweepErr with
        | some e => .error e
        | none =>
          .ok (.localCache st blockCacheDir [2] caching.MaxCacheSizeBytes
                 caching.HMACSecret caching.MaxListCacheDurationSec,
               (ev3 ++ [.syncSweep]) ++ [.startBackgroundSweep])

/-- Modelled from the spec: the body of `getContentBlock` on the
disabled variant is not in src; the spec says every operation of the
disabled variant delegates directly to the remote storage backend. -/
def nullGetContentBlock (st : Storage) (cacheKey physicalBlockID : String)
    (offset length : Int) : Except String (List Nat) :=
  st.getBlock physicalBlockID offset length

/-- Modelled from the spec: `listIndexBlocks` on the disabled variant
delegates directly to the remote storage backend. -/
def nullListIndexBlocks (st : Storage) : Except String (List IndexInfo) :=
  st.listBlocks

/-- Modelled from the spec: the disabled variant keeps no local state,
so `deleteListCache` has nothing to delete and does nothing. -/
def nullDeleteListCache (st : Storage) : Unit := ()

/-- Modelled from the spec: `close` on the disabled variant is a no-op
returning no error (there is no background task to stop). -/
def nullClose (st : Storage) : Except String Unit := .ok ()

/-- A concrete backing store (witness input). -/
def stWitness : Storage :=
  { getBlock := fun _ _ _ => .ok [7], listBlocks := .ok [{ blockID := "n0" }] }

/-- Caching options with a zero size budget (caching disabled). -/
def cachingOff : CachingOptions :=
  { CacheDirectory := "/cache", MaxCacheSizeBytes := 0, MaxListCacheDurationSec := 0,
    IgnoreListCache := false, HMACSecret := [] }

/-- Caching options with a size budget and directory configured. -/
def cachingOn : CachingOptions :=
  { CacheDirectory := "/cache", MaxCacheSizeBytes := 7, MaxListCacheDurationSec := 30,
    IgnoreListCache := true, HMACSecret := [1, 2] }

/-- An environment where the blocks directory is missing, its creation
succeeds, and the storage open and the initial sweep succeed. -/
def envMkdir : ConstructEnv :=
  { statBlocksDirExists := false, mkdirErr := none, openErr := none, sweepErr := none }

end Block

/-
Helper lemmas about the directory-listing cache embedding.
-/

namespace Fscache

/-- A node projection untouched by `f` is untouched by `updNode`. -/
theorem getN_updNode_inv {α : Type} (g : Node → α) (f : Node → Node)
    (hf : ∀ n, g (f n) = g n) :
    ∀ (ns : List Node) (i j : Nat), g (getN (updNode ns i f) j) = g (getN ns j) := by
  intro ns
  induction ns with
  | nil => intro i j; rfl
  | cons n rest ih =>
    intro i j
    cases i with
    | zero =>
      cases j with
      | zero => simp [updNode, getN, hf]
      | succ j2 => simp [updNode, getN]
    | succ i2 =>
      cases j with
      | zero => simp [updNode, getN]
      | succ j2 => simp [updNode, getN, ih]

theorem setNext_id (s : CacheState) (i : Nat) (v : Option Nat) (j : Nat) :
    (getN (setNext s i v).nodes j).id = (getN s.nodes j).id :=
  getN_updNode_inv Node.id (fun n => { n with next := v }) (fun _ => rfl) s.nodes i j

theorem setPrev_id (s : CacheState) (i : Nat) (v : Option Nat) (j : Nat) :
    (getN (setPrev s i v).nodes j).id = (getN s.nodes j).id :=
  getN_updNode_inv Node.id (fun n => { n with prev := v }) (fun _ => rfl) s.nodes i j

theorem setNext_entries (s : CacheState) (i : Nat) (v : Option Nat) (j : Nat) :
    (getN (setNext s i v).nodes j).entries = (getN s.nodes j).entries :=
  getN_updNode_inv Node.entries (fun n => { n with next := v }) (fun _ => rfl) s.nodes i j

theorem setPrev_entries (s : CacheState) (i : Nat) (v : Option Nat) (j : Nat) :
    (getN (setPrev s i v).nodes j).entries = (getN s.nodes j).entries :=
  getN_updNode_inv Node.entries (fun n => { n with prev := v }) (fun _ => rfl) s.nodes i j

theorem removeStep1_frame (s : CacheState) (e : Nat) :
    (removeStep1 s e).data = s.data
    ∧ (removeStep1 s e).totalDirectoryEntries = s.totalDirectoryEntries
    ∧ (removeStep1 s e).maxDirectoryEntries = s.maxDirectoryEntries
    ∧ (removeStep1 s e).maxDirectories = s.maxDirectories
    ∧ (∀ j, (getN (removeStep1 s e).nodes j).id = (getN s.nodes j).id)
    ∧ (∀ j, (getN (removeStep1 s e).nodes j).entries = (getN s.nodes j).entries) := by
  unfold removeStep1
  cases (getN s.nodes e).prev with
  | none => exact ⟨rfl, rfl, rfl, rfl, fun j => rfl, fun j => rfl⟩
  | some p => exact ⟨rfl, rfl, rfl, rfl, setNext_id s p _, setNext_entries s p _⟩

theorem removeStep2_frame (s : CacheState) (e : Nat) :
    (removeStep2 s e).data = s.data
    ∧ (removeStep2 s e).totalDirectoryEntries = s.totalDirectoryEntries
    ∧ (removeStep2 s e).maxDirectoryEntries = s.maxDirectoryEntries
    ∧ (removeStep2 s e).maxDirectories = s.maxDirectories
    ∧ (∀ j, (getN (removeStep2 s e).nodes j).id = (getN s.nodes j).id)
    ∧ (∀ j, (getN (removeStep2 s e).nodes j).entries = (getN s.nodes j).entries) := by
  unfold removeStep2
  cases (getN s.nodes e).next with
  | none => exact ⟨rfl, rfl, rfl, rfl, fun j => rfl, fun j => rfl⟩
  | some nx => exact ⟨rfl, rfl, rfl, rfl, setPrev_id s nx _, setPrev_entries s nx _⟩

theorem remove_data (s : CacheState) (e : Nat) : (remove s e).data = s.data := by
  unfold remove
  rw [(removeStep2_frame _ e).1, (removeStep1_frame s e).1]

theorem remove_total (s : CacheState) (e : Nat) :
    (remove s e).totalDirectoryEntries = s.totalDirectoryEntries := by
  unfold remove
  rw [(removeStep2_frame _ e).2.1, (removeStep1_frame s e).2.1]

theorem remove_maxDE (s : CacheState) (e : Nat) :
    (remove s e).maxDirectoryEntries = s.maxDirectoryEntries := by
  unfold remove
  rw [(removeStep2_frame _ e).2.2.1, (removeStep1_frame s e).2.2.1]

theorem remove_maxDirs (s : CacheState) (e : Nat) :
    (remove s e).maxDirectories = s.maxDirectories := by
  unfold remove
  rw [(removeStep2_frame _ e).2.2.2.1, (removeStep1_frame s e).2.2.2.1]

theorem remove_id (s : CacheState) (e j : Nat) :
    (getN (remove s e).nodes j).id = (getN s.nodes j).id := by
  unfold remove
  rw [(removeStep2_frame _ e).2.2.2.2.1 j, (removeStep1_frame s e).2.2.2.2.1 j]

theorem remove_entries (s : CacheState) (e j : Nat) :
    (getN (remove s e).nodes j).entries = (getN s.nodes j).entries := by
  unfold remove
  rw [(removeStep2_frame _ e).2.2.2.2.2 j, (removeStep1_frame s e).2.2.2.2.2 j]

theorem removeEntryLocked_data (s : CacheState) (i : Nat) :
    (removeEntryLocked s i).data = mapErase s.data (getN s.nodes i).id := by
  unfold removeEntryLocked
  dsimp only
  rw [remove_data, remove_id]

theorem removeEntryLocked_total (s : CacheState) (i : Nat) :
    (removeEntryLocked s i).totalDirectoryEntries
      = s.totalDirectoryEntries - ((getN s.nodes i).entries.length : Int) := by
  unfold removeEntryLocked
  dsimp only
  rw [remove_total, remove_entries]

theorem removeEntryLocked_maxDE (s : CacheState) (i : Nat) :
    (removeEntryLocked s i).maxDirectoryEntries = s.maxDirectoryEntries := by
  unfold removeEntryLocked
  dsimp only
  rw [remove_maxDE]

theorem mapLookup_eq_none_of_not_mem (m : List (String × Nat)) (k : String)
    (h : k ∉ m.map Prod.fst) : mapLookup m k = none := by
  induction m with
  | nil => rfl
  | cons p rest ih =>
    obtain ⟨k1, v1⟩ := p
    simp only [List.map_cons, List.mem_cons, not_or] at h
    simp only [mapLookup]
    rw [if_neg (fun hh => h.1 hh.symm)]
    exact ih h.2

theorem mapLookup_mapErase_self (m : List (String × Nat)) (k : String)
    (h : (m.map Prod.fst).Nodup) : mapLookup (mapErase m k) k = none := by
  induction m with
  | nil => rfl
  | cons p rest ih =>
    obtain ⟨k1, v1⟩ := p
    simp only [List.map_cons, List.nodup_cons] at h
    simp only [mapErase]
    by_cases hk : k1 = k
    · rw [if_pos hk]
      subst hk
      exact mapLookup_eq_none_of_not_mem rest k1 h.1
    · rw [if_neg hk]
      simp only [mapLookup]
      rw [if_neg hk]
      exact ih h.2

theorem mapLookup_mem (m : List (String × Nat)) (k : String) (v : Nat)
    (h : mapLookup m k = some v) : (k, v) ∈ m := by
  induction m with
  | nil => cases h
  | cons p rest ih =>
    obtain ⟨k1, v1⟩ := p
    simp only [mapLookup] at h
    by_cases hk : k1 = k
    · rw [if_pos hk] at h
      subst hk
      injection h with h2
      subst h2
      exact List.mem_cons_self _ _
    · rw [if_neg hk] at h
      exact List.mem_cons_of_mem _ (ih h)

theorem missFrom_error (s : CacheState) (id : String) (now exp : Nat) (e : String) (fuel : Nat) :
    missFrom s id now exp (.error e) fuel
      = some { res := .error e, state := s, calledLoader := true, unlocked := false } := rfl

theorem missFrom_oversize (s : CacheState) (id : String) (now exp : Nat) (raw : List Nat)
    (fuel : Nat) (h : (raw.length : Int) > s.maxDirectoryEntries) :
    missFrom s id now exp (.ok raw) fuel
      = some { res := .ok raw, state := s, calledLoader := true, unlocked := true } := by
  unfold missFrom
  dsimp only
  rw [if_pos h]

theorem missFrom_calls_loader (s : CacheState) (id : String) (now exp : Nat)
    (cb : Except String (List Nat)) (fuel : Nat) :
    (missFrom s id now exp cb fuel).all (fun r => r.calledLoader) = true := by
  unfold missFrom
  cases cb with
  | error e => rfl
  | ok raw =>
    dsimp only
    by_cases h : (raw.length : Int) > s.maxDirectoryEntries
    · rw [if_pos h]
      rfl
    · rw [if_neg h]
      split <;> rfl

theorem getEntries_not_found (s : CacheState) (id : String) (now exp : Nat)
    (cb : Except String (List Nat)) (fuel : Nat) (hm : mapLookup s.data id = none) :
    GetEntries s id now exp cb fuel = missFrom s id now exp cb fuel := by
  unfold GetEntries
  rw [hm]

theorem getEntries_empty_found (s : CacheState) (id : String) (i : Nat) (now exp : Nat)
    (cb : Except String (List Nat)) (fuel : Nat)
    (hm : mapLookup s.data id = some i) (hid : id = "") :
    GetEntries s id now exp cb fuel = missFrom s id now exp cb fuel := by
  unfold GetEntries
  rw [hm]
  dsimp only
  rw [if_pos hid]

theorem getEntries_hit (s : CacheState) (id : String) (i : Nat) (now exp : Nat)
    (cb : Except String (List Nat)) (fuel : Nat)
    (hm : mapLookup s.data id = some i) (hid : ¬ id = "")
    (hexp : now < (getN s.nodes i).expireAfter) :
    GetEntries s id now exp cb fuel
      = some { res := .ok (getN s.nodes i).entries, state := moveToHead s i,
               calledLoader := false, unlocked := true } := by
  unfold GetEntries
  rw [hm]
  dsimp only
  rw [if_neg hid, if_pos hexp]

theorem getEntries_expired (s : CacheState) (id : String) (i : Nat) (now exp : Nat)
    (cb : Except String (List Nat)) (fuel : Nat)
    (hm : mapLookup s.data id = some i) (hid : ¬ id = "")
    (hexp : ¬ now < (getN s.nodes i).expireAfter) :
    GetEntries s id now exp cb fuel = missFrom (removeEntryLocked s i) id now exp cb fuel := by
  unfold GetEntries
  rw [hm]
  dsimp only
  rw [if_neg hid, if_neg hexp]

end Fscache

/-
Claim theorems for the directory-listing cache.
-/

namespace Fscache

/-- C1: evaluating `GetEntries` at the failing input.  After two
insertions under the empty identifier (the second overwrites the map
binding but adds a second list node, and the counter is incremented both
times), `totalDirectoryEntries` is 5 while the sum of the entry counts
over the map values is 3: the counter does not equal the aggregate the
claim states. -/
theorem c1_counter_diverges_from_map_aggregate :
    emptyIdTrace2.map (fun s => (s.totalDirectoryEntries, (sumEntries s : Int)))
      = some (5, 3) ∧ (5 : Int) ≠ 3 := by
  exact ⟨by decide, by decide⟩

/-- C2: evaluating the list operations at the failing input.  Insert A
(index 0) and B (index 1); a hit on A promotes it, but `addToHead`
leaves the stale pointer `A.prev = B`; when A is later removed as
expired, `remove` follows that stale pointer: the head is left pointing
at the removed node 0 (A, no longer in the map) instead of being reset,
and node 1 (B) ends self-linked — the neighbour links are not correctly
patched. -/
theorem c2_removal_after_promotion_leaves_head_on_removed_node :
    promoteTrace4.map
        (fun s => (s.head, mapLookup s.data "A",
                   (getN s.nodes 1).prev, (getN s.nodes 1).next, s.tail))
      = some (some 0, none, some 1, some 1, some 1) := by
  decide

/-- C3: evaluating `GetEntries` at the failing input.  Two calls with
the empty-string identifier leave TWO cacheEntry nodes carrying
identifier "" linked in the access-order list (head node 1, whose next
is node 0) while the map holds a single binding: the map and the list do
not agree on a single entry per identifier. -/
theorem c3_two_list_entries_for_empty_identifier :
    emptyIdTrace2.map
        (fun s => ((getN s.nodes 0).id, (getN s.nodes 1).id,
                   s.head, (getN s.nodes 1).next, s.data))
      = some ("", "", some 1, some 0, [("", 1)]) := by
  rfl

/-- C4, counterexample to the claim as stated: a cache holding an entry
for "A" that is expired at the call instant, with a failing loader.  The
call propagates the error, but the cache state is mutated: the counter
drops from 1 to 0 (the expired entry was evicted before the loader ran),
so the state after the failing call differs from the state before it. -/
theorem c4_counterexample_failing_call_mutates_state :
    oneEntryTrace.map (fun s => s.totalDirectoryEntries) = some 1
    ∧ failAfterExpiryRes.map (fun r => (r.res, r.state.totalDirectoryEntries, r.state.data))
        = some (.error "boom", 0, []) := by
  exact ⟨by decide, by decide⟩

/-- C4 (amended): when the loader of a `GetEntries` call fails and was
actually invoked, its error is propagated unchanged and nothing is
cached; the resulting cache state is exactly the state after the
lookup/expiry phase — unchanged unless an expired entry for the (nonempty)
identifier was present, in which case only that eviction happened. -/
theorem c4_loader_failure_propagated_state_after_lookup
    (s : CacheState) (id : String) (now exp : Nat) (e : String) (fuel : Nat) (r : GetResult)
    (h : GetEntries s id now exp (.error e) fuel = some r)
    (hcalled : r.calledLoader = true) :
    r.res = .error e ∧ r.state = afterLookupState s id now := by
  cases hm : mapLookup s.data id with
  | none =>
    rw [getEntries_not_found s id now exp _ fuel hm, missFrom_error] at h
    injection h with h2
    subst h2
    refine ⟨rfl, ?_⟩
    unfold afterLookupState
    rw [hm]
  | some i =>
    by_cases hid : id = ""
    · rw [getEntries_empty_found s id i now exp _ fuel hm hid, missFrom_error] at h
      injection h with h2
      subst h2
      refine ⟨rfl, ?_⟩
      unfold afterLookupState
      rw [hm]
      dsimp only
      rw [if_pos hid]
    · by_cases hexp : now < (getN s.nodes i).expireAfter
      · rw [getEntries_hit s id i now exp _ fuel hm hid hexp] at h
        injection h with h2
        subst h2
        simp at hcalled
      · rw [getEntries_expired s id i now exp _ fuel hm hid hexp, missFrom_error] at h
        injection h with h2
        subst h2
        refine ⟨rfl, ?_⟩
        unfold afterLookupState
        rw [hm]
        dsimp only
        rw [if_neg hid, if_neg hexp]

theorem c4_loader_failure_propagated_state_after_lookup_witness :
    ({ res := .error "boom", state := NewCache, calledLoader := true,
       unlocked := false } : GetResult).res = Except.error "boom"
    ∧ ({ res := .error "boom", state := NewCache, calledLoader := true,
         unlocked := false } : GetResult).state = afterLookupState NewCache "a" 0 :=
  c4_loader_failure_propagated_state_after_lookup NewCache "a" 0 10 "boom" 1
    { res := .error "boom", state := NewCache, calledLoader := true, unlocked := false }
    (by decide) (by decide)

/-- C5, counterexample to the claim as stated: a cached entry under the
empty identifier (payload [1], expires at 100) is retrieved at instant 1,
well before expiration, yet the loader IS invoked and its result [9] is
returned instead of the stored payload — the empty-id guard on the hit
path makes such an entry unreachable. -/
theorem c5_counterexample_unexpired_empty_id_entry_not_returned :
    emptyHitTrace.map
        (fun s => (mapLookup s.data "", (getN s.nodes 0).entries, (getN s.nodes 0).expireAfter))
      = some (some 0, [1], 100)
    ∧ emptyHitRes.map (fun r => (r.res, r.calledLoader)) = some (.ok [9], true) := by
  exact ⟨by decide, by decide⟩

/-- C5 (amended): for a cached entry with a NONEMPTY identifier.  If the
call instant is before the expiry instant, the stored payload is
returned unchanged, the entry is promoted, and the loader is not
invoked.  Otherwise the call proceeds exactly as a miss run from the
state with that entry evicted: its identifier is gone from the map, its
entry count is subtracted from the counter, and the loader is invoked. -/
theorem c5_expiry_semantics_nonempty_identifier
    (s : CacheState) (id : String) (i : Nat) (now exp : Nat)
    (cb : Except String (List Nat)) (fuel : Nat)
    (hid : ¬ id = "") (hmem : mapLookup s.data id = some i)
    (hnode : (getN s.nodes i).id = id)
    (huniq : (s.data.map Prod.fst).Nodup) :
    (now < (getN s.nodes i).expireAfter →
      GetEntries s id now exp cb fuel
        = some { res := .ok (getN s.nodes i).entries, state := moveToHead s i,
                 calledLoader := false, unlocked := true })
    ∧ (¬ now < (getN s.nodes i).expireAfter →
      GetEntries s id now exp cb fuel = missFrom (removeEntryLocked s i) id now exp cb fuel
      ∧ mapLookup (removeEntryLocked s i).data id = none
      ∧ (removeEntryLocked s i).totalDirectoryEntries
          = s.totalDirectoryEntries - ((getN s.nodes i).entries.length : Int)
      ∧ (GetEntries s id now exp cb fuel).all (fun r => r.calledLoader) = true) := by
  constructor
  · intro hexp
    exact getEntries_hit s id i now exp cb fuel hmem hid hexp
  · intro hexp
    have heq := getEntries_expired s id i now exp cb fuel hmem hid hexp
    refine ⟨heq, ?_, removeEntryLocked_total s i, ?_⟩
    · rw [removeEntryLocked_data, hnode]
      exact mapLookup_mapErase_self s.data id huniq
    · rw [heq]
      exact missFrom_calls_loader _ id now exp cb fuel

theorem c5_expiry_semantics_nonempty_identifier_witness :
    (5 < (getN oneEntryLit.nodes 0).expireAfter →
      GetEntries oneEntryLit "a" 5 10 (.ok [9]) 1
        = some { res := .ok (getN oneEntryLit.nodes 0).entries,
                 state := moveToHead oneEntryLit 0,
                 calledLoader := false, unlocked := true })
    ∧ (¬ 5 < (getN oneEntryLit.nodes 0).expireAfter →
      GetEntries oneEntryLit "a" 5 10 (.ok [9]) 1
        = missFrom (removeEntryLocked oneEntryLit 0) "a" 5 10 (.ok [9]) 1
      ∧ mapLookup (removeEntryLocked oneEntryLit 0).data "a" = none
      ∧ (removeEntryLocked oneEntryLit 0).totalDirectoryEntries
          = oneEntryLit.totalDirectoryEntries
              - ((getN oneEntryLit.nodes 0).entries.length : Int)
      ∧ (GetEntries oneEntryLit "a" 5 10 (.ok [9]) 1).all (fun r => r.calledLoader) = true) :=
  c5_expiry_semantics_nonempty_identifier oneEntryLit "a" 0 5 10 (.ok [9]) 1
    (by decide) (by decide) (by decide) (by decide)

/-- C6: evaluating the code at the failing input.  In `staleTailTrace6`
the tail still points at a removed ghost node whose identifier is "B"
(left behind by the promote-then-remove pointer corruption).  Re-inserting
"B" with 8 entries overflows the budget; the eviction loop removes the
ghost tail, and `removeEntryLocked` deletes map key "B" — the binding of
the entry JUST INSERTED — while another entry ("C") remains cached.  A
lookup for "B" right after its own insertion therefore misses. -/
theorem c6_eviction_removes_just_inserted_entry :
    staleTailRes7.map
        (fun r => (r.res, mapLookup r.state.data "B", mapLookup r.state.data "C",
                   r.state.totalDirectoryEntries))
      = some (.ok [4, 4, 4, 4, 4, 4, 4, 4], none, some 2, 9) := by
  decide

/-- The concrete eviction scenario of the spec does hold: with
maxDirectoryEntries = 10 and maxDirectories = 5, inserting d1, d2, d3
with 4 entries each evicts d1 (least recently used) and leaves total 8
with 2 distinct directories.  (Supporting evidence, not a claim.) -/
theorem eviction_concrete_scenario_d1_d2_d3 :
    evictScenario3.map
        (fun s => (mapLookup s.data "d1", mapLookup s.data "d2", mapLookup s.data "d3",
                   s.totalDirectoryEntries, s.data.length))
      = some (none, some 1, some 2, 8, 2) := by
  decide

/-- C7: a `GetEntries` call whose loader was invoked and succeeded with
a result strictly larger than maxDirectoryEntries returns that result to
the caller, leaves the cache exactly as it was after the lookup/expiry
phase (nothing inserted), and leaves no map binding for the identifier
(so a subsequent lookup cannot find the oversize result; an empty
identifier never hits at all). -/
theorem c7_oversize_result_returned_uncached
    (s : CacheState) (id : String) (now exp : Nat) (raw : List Nat) (fuel : Nat) (r : GetResult)
    (hlen : (raw.length : Int) > s.maxDirectoryEntries)
    (h : GetEntries s id now exp (.ok raw) fuel = some r)
    (hcalled : r.calledLoader = true)
    (hcons : mapConsistent s)
    (huniq : (s.data.map Prod.fst).Nodup) :
    r.res = .ok raw ∧ r.state = afterLookupState s id now
    ∧ (id = "" ∨ mapLookup r.state.data id = none) := by
  cases hm : mapLookup s.data id with
  | none =>
    rw [getEntries_not_found s id now exp _ fuel hm, missFrom_oversize s id now exp raw fuel hlen] at h
    injection h with h2
    subst h2
    refine ⟨rfl, ?_, Or.inr hm⟩
    unfold afterLookupState
    rw [hm]
  | some i =>
    by_cases hid : id = ""
    · rw [getEntries_empty_found s id i now exp _ fuel hm hid,
          missFrom_oversize s id now exp raw fuel hlen] at h
      injection h with h2
      subst h2
      refine ⟨rfl, ?_, Or.inl hid⟩
      unfold afterLookupState
      rw [hm]
      dsimp only
      rw [if_pos hid]
    · by_cases hexp : now < (getN s.nodes i).expireAfter
      · rw [getEntries_hit s id i now exp _ fuel hm hid hexp] at h
        injection h with h2
        subst h2
        simp at hcalled
      · rw [getEntries_expired s id i now exp (.ok raw) fuel hm hid hexp,
            missFrom_oversize (removeEntryLocked s i) id now exp raw fuel
              (by rw [removeEntryLocked_maxDE]; exact hlen)] at h
        injection h with h2
        subst h2
        refine ⟨rfl, ?_, Or.inr ?_⟩
        · unfold afterLookupState
          rw [hm]
          dsimp only
          rw [if_neg hid, if_neg hexp]
        · rw [removeEntryLocked_data]
          have hnid : (getN s.nodes i).id = id := hcons (id, i) (mapLookup_mem s.data id i hm)
          rw [hnid]
          exact mapLookup_mapErase_self s.data id huniq

theorem c7_oversize_result_returned_uncached_witness :
    ({ res := .ok [1, 2, 3], state := MaxCachedDirectoryEntries 2 NewCache,
       calledLoader := true, unlocked := true } : GetResult).res = Except.ok [1, 2, 3]
    ∧ ({ res := .ok [1, 2, 3], state := MaxCachedDirectoryEntries 2 NewCache,
         calledLoader := true, unlocked := true } : GetResult).state
        = afterLookupState (MaxCachedDirectoryEntries 2 NewCache) "a" 0
    ∧ ("a" = ""
        ∨ mapLookup ({ res := .ok [1, 2, 3], state := MaxCachedDirectoryEntries 2 NewCache,
                       calledLoader := true, unlocked := true } : GetResult).state.data "a"
            = none) :=
  c7_oversize_result_returned_uncached (MaxCachedDirectoryEntries 2 NewCache) "a" 0 10
    [1, 2, 3] 1
    { res := .ok [1, 2, 3], state := MaxCachedDirectoryEntries 2 NewCache,
      calledLoader := true, unlocked := true }
    (by decide) (by decide) (by decide) (by decide) (by decide)

/-- C10: evaluating the return paths at concrete inputs.  On the
loader-failure path `GetEntries` returns WITHOUT calling `c.Unlock()`
(the lock stays held, so a later call deadlocks), while the insert path,
the hit path and the oversize path all unlock.  This refutes the claim
that every return path releases the lock. -/
theorem c10_loader_failure_path_does_not_unlock :
    (GetEntries NewCache "a" 0 10 (.error "boom") 5).map (fun r => r.unlocked) = some false
    ∧ (GetEntries NewCache "a" 0 10 (.ok [1]) 5).map (fun r => r.unlocked) = some true
    ∧ (GetEntries oneEntryLit "a" 5 10 (.error "boom") 5).map (fun r => r.unlocked) = some true
    ∧ (GetEntries (MaxCachedDirectoryEntries 2 NewCache) "a" 0 10 (.ok [1, 2, 3]) 5).map
        (fun r => r.unlocked) = some true := by
  exact ⟨by decide, by decide, by decide, by decide⟩

end Fscache

/-
Claim theorems for the block cache construction.
-/

namespace Block

/-- C8: when the size budget is zero or the cache directory is unset,
`newBlockCache` returns the disabled (null) variant, performing no
effect (no directory creation, no storage open, no sweep, no background
task); the null variant operations pass straight through to the remote
backend, its delete-list-cache does nothing, and close is a no-op. -/
theorem c8_disabled_variant_when_unconfigured
    (st : Storage) (caching : CachingOptions) (env : ConstructEnv)
    (k p : String) (o l : Int)
    (h : caching.MaxCacheSizeBytes = 0 ∨ caching.CacheDirectory = "") :
    newBlockCache st caching env = .ok (.nullCache st, [])
    ∧ nullGetContentBlock st k p o l = st.getBlock p o l
    ∧ nullListIndexBlocks st = st.listBlocks
    ∧ nullDeleteListCache st = ()
    ∧ nullClose st = .ok () := by
  refine ⟨?_, rfl, rfl, rfl, rfl⟩
  unfold newBlockCache
  rw [if_pos h]

theorem c8_disabled_variant_when_unconfigured_witness :
    newBlockCache stWitness cachingOff envMkdir = .ok (.nullCache stWitness, [])
    ∧ nullGetContentBlock stWitness "k" "p" 0 4 = stWitness.getBlock "p" 0 4
    ∧ nullListIndexBlocks stWitness = stWitness.listBlocks
    ∧ nullDeleteListCache stWitness = ()
    ∧ nullClose stWitness = .ok () :=
  c8_disabled_variant_when_unconfigured stWitness cachingOff envMkdir "k" "p" 0 4
    (Or.inl rfl)

/-- C9: with a nonzero budget and a nonempty directory, construction
follows the protocol in order — create the blocks directory when absent
(propagating the creation error), open the sharded local storage at
directory/blocks with shard width 2, delete the cached index listing
when IgnoreListCache is set, run one synchronous sweep (propagating its
error), and only after all of that start the background sweep and return
the engine; every failure yields an error and no engine. -/
theorem c9_construction_protocol_order_and_errors
    (st : Storage) (caching : CachingOptions) (env : ConstructEnv) (e : String)
    (hsz : ¬ caching.MaxCacheSizeBytes = 0) (hdir : ¬ caching.CacheDirectory = "") :
    (env.statBlocksDirExists = false → env.mkdirErr = some e →
        newBlockCache st caching env = .error e)
    ∧ ((env.statBlocksDirExists = true ∨ env.mkdirErr = none) → env.openErr = some e →
        newBlockCache st caching env = .error e)
    ∧ ((env.statBlocksDirExists = true ∨ env.mkdirErr = none) → env.openErr = none →
        env.sweepErr = some e → newBlockCache st caching env = .error e)
    ∧ ((env.statBlocksDirExists = true ∨ env.mkdirErr = none) → env.openErr = none →
        env.sweepErr = none →
        newBlockCache st caching env
          = .ok (.localCache st (caching.CacheDirectory ++ "/blocks") [2]
                   caching.MaxCacheSizeBytes caching.HMACSecret
                   caching.MaxListCacheDurationSec,
                 (if env.statBlocksDirExists then [] else [.mkdirBlocks])
                   ++ [.openCacheStorage (caching.CacheDirectory ++ "/blocks") [2]]
                   ++ (if caching.IgnoreListCache then [.deleteListCacheEvent] else [])
                   ++ [.syncSweep] ++ [.startBackgroundSweep])) := by
  have hguard : ¬ (caching.MaxCacheSizeBytes = 0 ∨ caching.CacheDirectory = "") :=
    fun hor => hor.elim hsz hdir
  obtain ⟨dir, size, dur, ign, secret⟩ := caching
  obtain ⟨stat, mk, op, sw⟩ := env
  refine ⟨?_, ?_, ?_, ?_⟩
  · intro hstat hmk
    dsimp only at hstat hmk
    subst hstat
    subst hmk
    unfold newBlockCache
    rw [if_neg hguard]
    rfl
  · intro hpre hopen
    dsimp only at hpre hopen
    subst hopen
    unfold newBlockCache
    rw [if_neg hguard]
    rcases hpre with hstat | hmk
    · subst hstat
      rfl
    · subst hmk
      cases stat <;> rfl
  · intro hpre hopen hsweep
    dsimp only at hpre hopen hsweep
    subst hopen
    subst hsweep
    unfold newBlockCache
    rw [if_neg hguard]
    rcases hpre with hstat | hmk
    · subst hstat
      rfl
    · subst hmk
      cases stat <;> rfl
  · intro hpre hopen hsweep
    dsimp only at hpre hopen hsweep
    subst hopen
    subst hsweep
    unfold newBlockCache
    rw [if_neg hguard]
    rcases hpre with hstat | hmk
    · subst hstat
      cases ign <;> rfl
    · subst hmk
      cases stat <;> cases ign <;> rfl

theorem c9_construction_protocol_order_and_errors_witness :
    (envMkdir.statBlocksDirExists = false → envMkdir.mkdirErr = some "e" →
        newBlockCache stWitness cachingOn envMkdir = .error "e")
    ∧ ((envMkdir.statBlocksDirExists = true ∨ envMkdir.mkdirErr = none) →
        envMkdir.openErr = some "e" →
        newBlockCache stWitness cachingOn envMkdir = .error "e")
    ∧ ((envMkdir.statBlocksDirExists = true ∨ envMkdir.mkdirErr = none) →
        envMkdir.openErr = none → envMkdir.sweepErr = some "e" →
        newBlockCache stWitness cachingOn envMkdir = .error "e")
    ∧ ((envMkdir.statBlocksDirExists = true ∨ envMkdir.mkdirErr = none) →
        envMkdir.openErr = none → envMkdir.sweepErr = none →
        newBlockCache stWitness cachingOn envMkdir
          = .ok (.localCache stWitness (cachingOn.CacheDirectory ++ "/blocks") [2]
                   cachingOn.MaxCacheSizeBytes cachingOn.HMACSecret
                   cachingOn.MaxListCacheDurationSec,
                 (if envMkdir.statBlocksDirExists then [] else [.mkdirBlocks])
                   ++ [.openCacheStorage (cachingOn.CacheDirectory ++ "/blocks") [2]]
                   ++ (if cachingOn.IgnoreListCache then [.deleteListCacheEvent] else [])
                   ++ [.syncSweep] ++ [.startBackgroundSweep])) :=
  c9_construction_protocol_order_and_errors stWitness cachingOn envMkdir "e"
    (by decide) (by decide)

end Block
